import Mathlib

/-!
Verification of the `lilbro` backend's engineering core against its
natural-language specification.

The development shallowly embeds, in exact arithmetic and pure state
passing, the subsystems the claims concern:

* `backend/app/services/homography.py` — homography computation
  (validation and the DLT linear system) and application (`apply_h`);
* `backend/app/services/ingest_state.py` — the job state store
  (`create_job`, `update_job`, `get_job`, `get_job_meta`,
  `_persist_locked`, `load_from_disk`);
* `backend/app/services/ingest_worker.py` — the ingest pipeline driver
  (`run_ingest`) over an environment supplying subprocess outcomes;
* `backend/app/routers/ingest.py` — the status-resolution logic
  (`_resolve_status` and its helpers).

Machine floats are modelled as rationals (exact arithmetic); Python
dicts keyed by upload id are modelled as insertion-ordered association
lists; raised exceptions are modelled with `Except`/`Option`.
-/

namespace Lilbro

/-! ## Association lists (Python dict keyed by string, insertion ordered) -/

/-- `dict.get(key)`: first value bound to `id`, if any. -/
def alookup {α : Type} (id : String) : List (String × α) → Option α
  | [] => none
  | (k, v) :: rest => if k = id then some v else alookup id rest

/-- `dict[key] = value`: replace in place if the key exists (Python dicts
keep the original insertion position), else append. -/
def setEntry {α : Type} (id : String) (v : α) : List (String × α) → List (String × α)
  | [] => [(id, v)]
  | (k, w) :: rest => if k = id then (k, v) :: rest else (k, w) :: setEntry id v rest

theorem alookup_setEntry {α : Type} (id : String) (v : α) :
    ∀ l : List (String × α), alookup id (setEntry id v l) = some v := by
  intro l
  induction l with
  | nil => simp [setEntry, alookup]
  | cons kv rest ih =>
      by_cases h : kv.1 = id
      · cases kv
        simp_all [setEntry, alookup]
      · cases kv
        simp_all [setEntry, alookup]

/-! ## Homography engine (`homography.py`)

Points and matrix entries are rationals: the Python code works in
IEEE floats, which we model with exact arithmetic, reading the spec's
"within numerical tolerance" as exactness of the exact-arithmetic model. -/

/-- A 3×3 homography matrix, row-major as returned by `compute_h`. -/
structure Mat3 where
  m11 : ℚ
  m12 : ℚ
  m13 : ℚ
  m21 : ℚ
  m22 : ℚ
  m23 : ℚ
  m31 : ℚ
  m32 : ℚ
  m33 : ℚ
deriving DecidableEq, Repr

/-- One step of `apply_h`: form `[x, y, 1]`, multiply by the matrix, and
divide the first two components by the third (perspective division). -/
def applyHPoint (m : Mat3) (p : ℚ × ℚ) : ℚ × ℚ :=
  ((m.m11 * p.1 + m.m12 * p.2 + m.m13) / (m.m31 * p.1 + m.m32 * p.2 + m.m33),
   (m.m21 * p.1 + m.m22 * p.2 + m.m23) / (m.m31 * p.1 + m.m32 * p.2 + m.m33))

/-- `apply_h(matrix, points)`: apply the homography to each point; an empty
input yields the empty list. -/
def apply_h (m : Mat3) (pts : List (ℚ × ℚ)) : List (ℚ × ℚ) :=
  pts.map (applyHPoint m)

/-- The perspective denominator `apply_h` divides by at point `p`. -/
def hDenom (m : Mat3) (p : ℚ × ℚ) : ℚ :=
  m.m31 * p.1 + m.m32 * p.2 + m.m33

/-- First DLT row built by `compute_h` for correspondence `(x,y) → (u,v)`:
`[-x, -y, -1, 0, 0, 0, u*x, u*y, u] ⬝ h`. -/
def dltRow1 (m : Mat3) (ip cp : ℚ × ℚ) : ℚ :=
  -ip.1 * m.m11 + -ip.2 * m.m12 + -m.m13
    + cp.1 * ip.1 * m.m31 + cp.1 * ip.2 * m.m32 + cp.1 * m.m33

/-- Second DLT row built by `compute_h` for correspondence `(x,y) → (u,v)`:
`[0, 0, 0, -x, -y, -1, v*x, v*y, v] ⬝ h`. -/
def dltRow2 (m : Mat3) (ip cp : ℚ × ℚ) : ℚ :=
  -ip.1 * m.m21 + -ip.2 * m.m22 + -m.m23
    + cp.2 * ip.1 * m.m31 + cp.2 * ip.2 * m.m32 + cp.2 * m.m33

/-- `m` satisfies the DLT constraints of `compute_h` for the given
correspondence: both rows of the homogeneous system `A h = 0` built by
`compute_h` vanish at (the flattening of) `m`.  In exact arithmetic the
SVD step of `compute_h` returns precisely a null vector of `A` (the
right singular vector of the zero singular value), scaled so that
`h[-1] = 1`; hence every matrix `compute_h` can return satisfies this
predicate on each supplied correspondence. -/
def satisfiesDLT (m : Mat3) (ip cp : ℚ × ℚ) : Prop :=
  dltRow1 m ip cp = 0 ∧ dltRow2 m ip cp = 0

instance (m : Mat3) (ip cp : ℚ × ℚ) : Decidable (satisfiesDLT m ip cp) := by
  unfold satisfiesDLT
  infer_instance

lemma applyHPoint_fst_of_dlt (m : Mat3) (ip cp : ℚ × ℚ)
    (h1 : dltRow1 m ip cp = 0) (hd : hDenom m ip ≠ 0) :
    (applyHPoint m ip).1 = cp.1 := by
  unfold hDenom at hd
  have hw : m.m11 * ip.1 + m.m12 * ip.2 + m.m13
      = cp.1 * (m.m31 * ip.1 + m.m32 * ip.2 + m.m33) := by
    unfold dltRow1 at h1
    linear_combination -h1
  unfold applyHPoint
  simp only
  rw [hw, mul_div_assoc, div_self hd, mul_one]

lemma applyHPoint_snd_of_dlt (m : Mat3) (ip cp : ℚ × ℚ)
    (h2 : dltRow2 m ip cp = 0) (hd : hDenom m ip ≠ 0) :
    (applyHPoint m ip).2 = cp.2 := by
  unfold hDenom at hd
  have hw : m.m21 * ip.1 + m.m22 * ip.2 + m.m23
      = cp.2 * (m.m31 * ip.1 + m.m32 * ip.2 + m.m33) := by
    unfold dltRow2 at h2
    linear_combination -h2
  unfold applyHPoint
  simp only
  rw [hw, mul_div_assoc, div_self hd, mul_one]

/-- C1 round-trip law.
`compute_h` validates its input, builds the DLT system `A h = 0`
(rows `dltRow1`/`dltRow2` per correspondence), solves for the null
vector by SVD, and normalizes; in exact arithmetic any matrix it
returns satisfies `satisfiesDLT` at every supplied correspondence.
This theorem shows that applying any such matrix to the image points
reproduces the court points exactly (the exact-arithmetic reading of
"within numerical tolerance"), whenever the perspective denominators
are nonzero — i.e. whenever `apply_h`'s division is defined at each
image point. -/
theorem compute_apply_roundtrip (m : Mat3) (img court : List (ℚ × ℚ))
    (hlen : img.length = court.length)
    (hdlt : ∀ pr ∈ img.zip court, satisfiesDLT m pr.1 pr.2)
    (hden : ∀ p ∈ img, hDenom m p ≠ 0) :
    apply_h m img = court := by
  induction img generalizing court with
  | nil =>
      cases court with
      | nil => rfl
      | cons cp cps => simp at hlen
  | cons ip rest ih =>
      cases court with
      | nil => simp at hlen
      | cons cp cps =>
          have hpair : satisfiesDLT m ip cp := hdlt (ip, cp) (by simp)
          have hd : hDenom m ip ≠ 0 := hden ip (by simp)
          have hpt : applyHPoint m ip = cp := by
            apply Prod.ext
            · exact applyHPoint_fst_of_dlt m ip cp hpair.1 hd
            · exact applyHPoint_snd_of_dlt m ip cp hpair.2 hd
          have htail : apply_h m rest = cps := by
            apply ih cps
            · simpa using hlen
            · intro pr hpr
              exact hdlt pr (by simp [hpr])
            · intro p hp
              exact hden p (by simp [hp])
          show applyHPoint m ip :: apply_h m rest = cp :: cps
          rw [hpt, htail]

/-- The identity homography, used as the concrete witness matrix; it
satisfies the DLT system of the identity correspondence on the unit
square. -/
def c1Mat : Mat3 := ⟨1, 0, 0, 0, 1, 0, 0, 0, 1⟩

/-- Four concrete 2D correspondences (the unit square). -/
def c1Pts : List (ℚ × ℚ) := [(0, 0), (1, 0), (0, 1), (1, 1)]

/-- Witness for C1 at a concrete valid 4-point correspondence. -/
theorem compute_apply_roundtrip_witness : apply_h c1Mat c1Pts = c1Pts :=
  compute_apply_roundtrip c1Mat c1Pts c1Pts rfl
    (by
      rintro pr hpr
      simp only [c1Pts, List.zip_cons_cons, List.zip_nil_right, List.mem_cons,
        List.not_mem_nil, or_false] at hpr
      rcases hpr with h | h | h | h <;> subst h <;>
        constructor <;> norm_num [dltRow1, dltRow2, c1Mat])
    (by
      rintro p hp
      simp only [c1Pts, List.mem_cons, List.not_mem_nil, or_false] at hp
      rcases hp with h | h | h | h <;> subst h <;> norm_num [hDenom, c1Mat])

/-- `_validate_points`: raises `ValueError` (`InvalidInput`) when fewer
than four points are supplied, or when the point array's second
dimension is not 2 (a ragged list likewise raises at `np.asarray`; both
are modelled as the dimension error).  Returns the error message, if
any. -/
def validate_points (pts : List (List ℚ)) : Option String :=
  if pts.length < 4 then
    some "At least four points are required to compute a homography"
  else if pts.any fun p => p.length != 2 then
    some "Points must be 2D coordinates"
  else none

/-- The validation prefix of `compute_h` (numpy path): validate the
image points, then the court points, then require equal counts.
`none` means `compute_h` proceeds to the SVD solve, which raises no
input-validation error. -/
def compute_h_check (img court : List (List ℚ)) : Option String :=
  match validate_points img with
  | some e => some e
  | none =>
    match validate_points court with
    | some e => some e
    | none =>
      if img.length ≠ court.length then
        some "Image points and court points must have the same length"
      else none

lemma validate_points_some_iff (pts : List (List ℚ)) :
    (validate_points pts).isSome ↔ (pts.length < 4 ∨ ∃ p ∈ pts, p.length ≠ 2) := by
  unfold validate_points
  split_ifs with h1 h2 <;> simp_all [List.any_eq_true]

/-- C5: `compute_h` fails with `InvalidInput` (`ValueError`) exactly when
fewer than 4 points appear in either input, some point is not
2-dimensional, or the lengths mismatch; in particular it does not fail
for valid inputs of exactly 4 correspondences of 2D points (for which
every right-hand disjunct is false). -/
theorem compute_h_invalid_input (img court : List (List ℚ)) :
    (compute_h_check img court).isSome ↔
      (img.length < 4 ∨ court.length < 4 ∨ (∃ p ∈ img, p.length ≠ 2) ∨
       (∃ p ∈ court, p.length ≠ 2) ∨ img.length ≠ court.length) := by
  unfold compute_h_check
  cases hv : validate_points img with
  | some e =>
      have hs : (validate_points img).isSome := by rw [hv]; rfl
      rw [validate_points_some_iff] at hs
      refine iff_of_true rfl ?_
      rcases hs with h | ⟨p, hp, hne⟩
      · exact Or.inl h
      · exact Or.inr (Or.inr (Or.inl ⟨p, hp, hne⟩))
  | none =>
      have hni : ¬ (validate_points img).isSome := by rw [hv]; simp
      rw [validate_points_some_iff] at hni
      push_neg at hni
      obtain ⟨hni1, hni2⟩ := hni
      cases hv2 : validate_points court with
      | some e =>
          have hs : (validate_points court).isSome := by rw [hv2]; rfl
          rw [validate_points_some_iff] at hs
          refine iff_of_true rfl ?_
          rcases hs with h | ⟨p, hp, hne⟩
          · exact Or.inr (Or.inl h)
          · exact Or.inr (Or.inr (Or.inr (Or.inl ⟨p, hp, hne⟩)))
      | none =>
          have hnc : ¬ (validate_points court).isSome := by rw [hv2]; simp
          rw [validate_points_some_iff] at hnc
          push_neg at hnc
          obtain ⟨hnc1, hnc2⟩ := hnc
          by_cases hl : img.length = court.length
          · refine iff_of_false (by simp [hl]) ?_
            rintro (h | h | ⟨p, hp, hne⟩ | ⟨p, hp, hne⟩ | h)
            · omega
            · omega
            · exact hne (hni2 p hp)
            · exact hne (hnc2 p hp)
            · exact h hl
          · refine iff_of_true (by simp [hl]) ?_
            exact Or.inr (Or.inr (Or.inr (Or.inr hl)))

/-! ## Job state store (`ingest_state.py`)

Store-written job records always carry the full field set that
`create_job` and `load_from_disk` construct, and their asset maps always
contain exactly the five `ASSET_KEYS`; the structures below encode that
shape.  The snapshot file is modelled as a value (`_persist_locked`
atomically replaces it wholesale), timestamps as opaque strings passed
in by the caller, and `KeyError` as `Except.error` carrying the id. -/

/-- The asset map: the five `ASSET_KEYS`, each nullable. -/
structure Assets where
  original_url : Option String
  mezzanine_url : Option String
  proxy_url : Option String
  thumbs_glob : Option String
  keyframes_csv : Option String
deriving DecidableEq, Repr

/-- A `_job_meta` record: `original_path` and `original_url`. -/
structure MetaRec where
  original_path : String
  original_url : String
deriving DecidableEq, Repr

/-- An ingest job record as built by `create_job`/`load_from_disk`. -/
structure Job where
  upload_id : String
  status : String
  stage : String
  progress : Int
  message : Option String
  assets : Assets
  started_at : Option String
  updated_at : Option String
deriving DecidableEq, Repr

/-- The on-disk snapshot `_persist_locked` writes: the whole job map and
meta map. -/
structure Snapshot where
  jobs : List (String × Job)
  meta : List (String × MetaRec)
deriving DecidableEq, Repr

/-- The store's state: in-memory `_jobs` and `_job_meta`, plus the
snapshot file at `INDEX_PATH` (`none` = file absent). -/
structure StoreState where
  jobs : List (String × Job)
  meta : List (String × MetaRec)
  disk : Option Snapshot
deriving DecidableEq, Repr

/-- `_default_assets(original_url)`. -/
def defaultAssets (originalUrl : Option String) : Assets :=
  ⟨originalUrl, none, none, none, none⟩

/-- Python `a or b` on nullable strings: `a` unless it is falsy
(`None` or the empty string). -/
def pyOr (a b : Option String) : Option String :=
  match a with
  | some s => if s = "" then b else some s
  | none => b

/-- `_normalize_assets(upload_id, assets)`: compute the `original_url`
fallback from the job's meta record, start from default (all-null)
assets, then overlay every key present in `assets`.  Store-written
asset maps carry all five keys, so the overlay writes all five fields
(in particular the fallback is overwritten again by the map's own
`original_url`, even when that is null). -/
def normalizeAssets (meta : Option MetaRec) (assets : Option Assets) : Assets :=
  let fromAssets := match assets with
    | some a => a.original_url
    | none => none
  let fromMeta := match meta with
    | some mrec => some mrec.original_url
    | none => none
  let base := defaultAssets (pyOr fromAssets fromMeta)
  match assets with
  | some a =>
      { base with
        original_url := a.original_url
        mezzanine_url := a.mezzanine_url
        proxy_url := a.proxy_url
        thumbs_glob := a.thumbs_glob
        keyframes_csv := a.keyframes_csv }
  | none => base

lemma normalizeAssets_some (meta : Option MetaRec) (a : Assets) :
    normalizeAssets meta (some a) = a := rfl

/-- A partial asset update passed to `update_job` (outer `Option` =
key present in the update dict; inner value may set the key to null).
Keys outside `ASSET_KEYS` are ignored by `update_job`, so only the five
known keys are modelled. -/
structure AssetsUpdate where
  original_url : Option (Option String)
  mezzanine_url : Option (Option String)
  proxy_url : Option (Option String)
  thumbs_glob : Option (Option String)
  keyframes_csv : Option (Option String)
deriving DecidableEq, Repr

/-- The `for key, value in assets_update.items(): if key in ASSET_KEYS`
loop of `update_job`. -/
def applyAssetsUpdate (au : AssetsUpdate) (a : Assets) : Assets :=
  { original_url := au.original_url.getD a.original_url
    mezzanine_url := au.mezzanine_url.getD a.mezzanine_url
    proxy_url := au.proxy_url.getD a.proxy_url
    thumbs_glob := au.thumbs_glob.getD a.thumbs_glob
    keyframes_csv := au.keyframes_csv.getD a.keyframes_csv }

/-- The `**fields` accepted by `update_job`, restricted to the data
model's field set (the fields its callers pass): `status`, `stage`,
`progress`, `message` (outer `Option` = key present; `message` may be
present and explicitly null), and a partial `assets` map. -/
structure UpdateFields where
  status : Option String
  stage : Option String
  progress : Option Int
  message : Option (Option String)
  assets : Option AssetsUpdate
deriving DecidableEq, Repr

/-- An update with no fields. -/
def noFields : UpdateFields := ⟨none, none, none, none, none⟩

/-- An update touching no assets. -/
def noAssets : AssetsUpdate := ⟨none, none, none, none, none⟩

/-- `_persist_locked()`: atomically replace the snapshot file with the
current in-memory jobs and meta maps. -/
def persistLocked (s : StoreState) : StoreState :=
  ⟨s.jobs, s.meta, some ⟨s.jobs, s.meta⟩⟩

/-- `create_job(upload_id, original_path, original_url)`: insert a fresh
queued record and matching meta record (silently overwriting any
existing ones), persist, and return the job. -/
def create_job (id path url now : String) (s : StoreState) : Job × StoreState :=
  let job : Job :=
    ⟨id, "queued", "queued", 0, none, defaultAssets (some url), none, some now⟩
  let jobs := setEntry id job s.jobs
  let meta := setEntry id (⟨path, url⟩ : MetaRec) s.meta
  (job, persistLocked ⟨jobs, meta, s.disk⟩)

/-- `update_job(upload_id, **fields)`: `KeyError` (modelled as
`Except.error upload_id`) if the id is unknown; otherwise apply
`message`, then the remaining scalar fields, then the asset merge
(normalizing the asset map even when no asset update is given), set
`started_at` on the first non-queued transition, refresh `updated_at`,
persist, and return the updated record. -/
def update_job (id : String) (f : UpdateFields) (now : String) (s : StoreState) :
    Except String (Job × StoreState) :=
  match alookup id s.jobs with
  | none => Except.error id
  | some job0 =>
    let job1 := match f.message with
      | some msgv => { job0 with message := msgv }
      | none => job0
    let job2 := match f.status with
      | some v => { job1 with status := v }
      | none => job1
    let job3 := match f.stage with
      | some v => { job2 with stage := v }
      | none => job2
    let job4 := match f.progress with
      | some v => { job3 with progress := v }
      | none => job3
    let job5 := match f.assets with
      | some au =>
          { job4 with
            assets := applyAssetsUpdate au
              (normalizeAssets (alookup id s.meta) (some job4.assets)) }
      | none =>
          { job4 with assets := normalizeAssets (alookup id s.meta) (some job4.assets) }
    let startedAt :=
      if job5.started_at = none ∧
          ((job5.status ≠ "" ∧ job5.status ≠ "queued") ∨
           (job5.stage ≠ "" ∧ job5.stage ≠ "queued")) then
        some now
      else job5.started_at
    let job7 : Job :=
      ⟨job5.upload_id, job5.status, job5.stage, job5.progress, job5.message,
        job5.assets, startedAt, some now⟩
    Except.ok (job7, persistLocked ⟨setEntry id job7 s.jobs, s.meta, s.disk⟩)

/-- `get_job(upload_id)`: a copy of the stored record, if any (a stored
job dict is never empty, so the falsiness guard coincides with
presence). -/
def get_job (id : String) (s : StoreState) : Option Job :=
  alookup id s.jobs

/-- `get_job_meta(upload_id)`. -/
def get_job_meta (id : String) (s : StoreState) : Option MetaRec :=
  alookup id s.meta

/-- One entry of `load_from_disk`'s job reconstruction: rebuild the
record keyed by the dict key, normalizing the asset map against the
just-loaded meta section and defaulting a null `updated_at` to the
current time. -/
def loadEntry (now : String) (meta : List (String × MetaRec)) (kv : String × Job) :
    String × Job :=
  (kv.1,
    { upload_id := kv.1
      status := kv.2.status
      stage := kv.2.stage
      progress := kv.2.progress
      message := kv.2.message
      assets := normalizeAssets (alookup kv.1 meta) (some kv.2.assets)
      started_at := kv.2.started_at
      updated_at := some (kv.2.updated_at.getD now) })

/-- `load_from_disk()`: if the snapshot file is absent, keep the current
state; otherwise clear and refill the meta map, then rebuild every job
record from the snapshot. -/
def load_from_disk (now : String) (s : StoreState) : StoreState :=
  match s.disk with
  | none => s
  | some snap =>
      ⟨snap.jobs.map (loadEntry now snap.meta), snap.meta, s.disk⟩

lemma loadEntry_eq_self (now : String) (meta : List (String × MetaRec))
    (kv : String × Job) (h1 : kv.2.upload_id = kv.1) (h2 : kv.2.updated_at ≠ none) :
    loadEntry now meta kv = kv := by
  obtain ⟨k, j⟩ := kv
  obtain ⟨uid, st, sg, pr, msg, a, sa, ua⟩ := j
  simp only at h1 h2
  cases ua with
  | none => exact absurd rfl h2
  | some t =>
      subst h1
      rfl

lemma map_loadEntry_eq_self (now : String) (meta : List (String × MetaRec)) :
    ∀ l : List (String × Job),
      (∀ kv ∈ l, (kv : String × Job).2.upload_id = kv.1) →
      (∀ kv ∈ l, (kv : String × Job).2.updated_at ≠ none) →
      l.map (loadEntry now meta) = l := by
  intro l
  induction l with
  | nil => intro _ _; rfl
  | cons kv rest ih =>
      intro h1 h2
      show loadEntry now meta kv :: rest.map (loadEntry now meta) = kv :: rest
      rw [loadEntry_eq_self now meta kv (h1 kv (by simp)) (h2 kv (by simp)),
        ih (fun x hx => h1 x (by simp [hx])) (fun x hx => h2 x (by simp [hx]))]

/-- C3: reloading a snapshot written by `_persist_locked` reconstructs
the in-memory job and meta maps exactly (null asset keys included),
provided every persisted job carries its own key as `upload_id` and a
non-null `updated_at` — both invariants of store-written records
(`create_job` and `update_job` always set them). -/
theorem persist_load_roundtrip (now : String) (s : StoreState)
    (hkey : ∀ kv ∈ s.jobs, (kv : String × Job).2.upload_id = kv.1)
    (hupd : ∀ kv ∈ s.jobs, (kv : String × Job).2.updated_at ≠ none) :
    load_from_disk now (persistLocked s) = persistLocked s := by
  show (⟨s.jobs.map (loadEntry now s.meta), s.meta, some ⟨s.jobs, s.meta⟩⟩ : StoreState)
      = ⟨s.jobs, s.meta, some ⟨s.jobs, s.meta⟩⟩
  rw [map_loadEntry_eq_self now s.meta s.jobs hkey hupd]

/-- A concrete mid-pipeline job whose `mezzanine_url`, `proxy_url`,
`thumbs_glob` and `keyframes_csv` are all still null. -/
def c3Job : Job :=
  ⟨"a1", "running", "transcode_mezz", 5, none,
    ⟨some "/assets/original/a1.mp4", none, none, none, none⟩, some "t1", some "t2"⟩

/-- A concrete store state holding `c3Job` and its meta record. -/
def c3State : StoreState :=
  ⟨[("a1", c3Job)], [("a1", ⟨"/data/original/a1.mp4", "/assets/original/a1.mp4"⟩)], none⟩

/-- Witness for C3 at a concrete snapshot with null asset keys. -/
theorem persist_load_roundtrip_witness :
    load_from_disk "t9" (persistLocked c3State) = persistLocked c3State :=
  persist_load_roundtrip "t9" c3State
    (by
      intro kv hkv
      simp only [c3State, List.mem_singleton] at hkv
      subst hkv
      rfl)
    (by
      intro kv hkv
      simp only [c3State, List.mem_singleton] at hkv
      subst hkv
      simp [c3Job])

/-- C4: immediately after `create_job(uploadId, originalPath,
originalUrl)`, `get_job(uploadId)` returns a record with
`status=queued`, `stage=queued`, `progress=0`, and every asset field
null except `original_url`, which equals the given `originalUrl`. -/
theorem create_then_get (id path url now : String) (s : StoreState) :
    ∃ j, get_job id (create_job id path url now s).2 = some j ∧
      j.status = "queued" ∧ j.stage = "queued" ∧ j.progress = 0 ∧
      j.assets.original_url = some url ∧ j.assets.mezzanine_url = none ∧
      j.assets.proxy_url = none ∧ j.assets.thumbs_glob = none ∧
      j.assets.keyframes_csv = none := by
  refine ⟨⟨id, "queued", "queued", 0, none, defaultAssets (some url), none, some now⟩,
    ?_, rfl, rfl, rfl, rfl, rfl, rfl, rfl, rfl⟩
  show alookup id (setEntry id _ s.jobs) = some _
  exact alookup_setEntry id _ s.jobs

/-- C9: `update_job` on an unknown id raises `KeyError(upload_id)`
(`NotFound`).  The check precedes every mutation and every persist, and
the model returns only the error — no job or meta record and no new
snapshot is produced, so in-memory state and the on-disk snapshot are
unchanged. -/
theorem update_job_not_found (id : String) (f : UpdateFields) (now : String)
    (s : StoreState) (h : alookup id s.jobs = none) :
    update_job id f now s = Except.error id := by
  unfold update_job
  rw [h]

/-- Witness for C9 on the empty store. -/
theorem update_job_not_found_witness :
    update_job "missing" noFields "t0" ⟨[], [], none⟩ = Except.error "missing" :=
  update_job_not_found "missing" noFields "t0" ⟨[], [], none⟩ rfl

/-- C10: calling `create_job` twice with the same id does not fail; the
second call overwrites both the job record (back to a fresh queued one,
`started_at` null, second call's url and timestamp) and the meta record,
discarding everything from the first call. -/
theorem create_job_overwrites (id p1 u1 n1 p2 u2 n2 : String) (s : StoreState) :
    get_job id (create_job id p2 u2 n2 (create_job id p1 u1 n1 s).2).2
        = some ⟨id, "queued", "queued", 0, none, defaultAssets (some u2), none, some n2⟩ ∧
      get_job_meta id (create_job id p2 u2 n2 (create_job id p1 u1 n1 s).2).2
        = some ⟨p2, u2⟩ := by
  constructor
  · show alookup id (setEntry id _ _) = _
    exact alookup_setEntry id _ _
  · show alookup id (setEntry id _ _) = _
    exact alookup_setEntry id _ _

/-! ## Ingest worker (`ingest_worker.py`)

`run_ingest` drives one job through the pipeline, calling the state
store after each stage.  Subprocess execution is modelled by an
environment `Env` giving each external command's outcome: `_run_command`
either returns captured stdout or raises `CommandError` (exit code,
stderr tail of at most 40 non-empty lines).  The probe's JSON output is
modelled as the parsed list of stream `codec_type` values; filesystem
writes (`mkdir`, `write_bytes`) are modelled as infallible.  The
worker's local `progress` variable, the final store state, the
re-raised error and the list of successfully applied `update_job` calls
are all returned. -/

/-- `CommandError`: command, exit code, and captured stderr tail. -/
structure CmdErr where
  command : List String
  returncode : Int
  stderr : List String
deriving DecidableEq, Repr

/-- An exception reaching `run_ingest`'s handler: a `CommandError` or
any other error carrying its `str(exc)` description. -/
inductive ExcInfo where
  | cmd (e : CmdErr)
  | other (desc : String)
deriving DecidableEq, Repr

/-- `str(CommandError(...))` as built by `CommandError.__init__`. -/
def strCmdErr (e : CmdErr) : String :=
  "Command " ++ String.intercalate " " e.command ++ " failed with exit code "
    ++ toString e.returncode

/-- `l[-n:]`: the last `n` elements. -/
def lastN {α : Type} (n : Nat) (l : List α) : List α :=
  l.drop (l.length - n)

/-- The diagnostic message `run_ingest`'s handler stores: for a
`CommandError` the newline-joined last 10 stderr lines when that join
is non-empty (Python truthiness), else `str(exc)`; for any other error
its description. -/
def formatErrorMessage : ExcInfo → String
  | .cmd e =>
      if String.intercalate "\n" (lastN 10 e.stderr) = "" then strCmdErr e
      else String.intercalate "\n" (lastN 10 e.stderr)
  | .other d => d

/-- `str(KeyError(upload_id))` — what `update_job` raises for an unknown
id, as seen by `run_ingest`'s handler. -/
def keyErrorExc (id : String) : ExcInfo :=
  .other ("\x27" ++ id ++ "\x27")

/-- Outcomes of the five external commands of one pipeline run. -/
structure Env where
  probe : Except CmdErr (List String)
  mezz : Except CmdErr Unit
  proxy : Except CmdErr Unit
  thumbs : Except CmdErr Unit
  keyframe : Except CmdErr String
deriving Repr

/-- `_build_asset_urls(upload_id)`. -/
structure AssetUrls where
  mezzanine_url : String
  proxy_url : String
  thumbs_glob : String
  keyframes_csv : String
deriving DecidableEq, Repr

def build_asset_urls (id : String) : AssetUrls :=
  ⟨"/assets/mezz/" ++ id ++ ".mp4",
   "/assets/proxy/" ++ id ++ ".mp4",
   "/assets/thumbs/" ++ id ++ "/thumb_%04d.jpg",
   "/assets/meta/" ++ id ++ "/keyframes.csv"⟩

lemma strCmdErr_ne_empty (e : CmdErr) : strCmdErr e ≠ "" := by
  unfold strCmdErr
  intro h
  have hlen := congrArg String.length h
  rw [String.length_append, String.length_append, String.length_append] at hlen
  have h8 : "Command ".length = 8 := rfl
  have h0 : "".length = 0 := rfl
  omega

lemma formatErrorMessage_cmd_ne (e : CmdErr) : formatErrorMessage (.cmd e) ≠ "" := by
  show (if String.intercalate "\n" (lastN 10 e.stderr) = "" then strCmdErr e
    else String.intercalate "\n" (lastN 10 e.stderr)) ≠ ""
  by_cases h : String.intercalate "\n" (lastN 10 e.stderr) = ""
  · rw [if_pos h]
    exact strCmdErr_ne_empty e
  · rw [if_neg h]
    exact h

/-- The outcome of one `run_ingest` invocation: the value returned or
error re-raised, the worker's local `progress` variable at exit, the
resulting store state, and the `update_job` requests that were applied
(submitted and did not raise), in order. -/
structure RunRes where
  result : Except ExcInfo Unit
  progress : Int
  state : StoreState
  trace : List UpdateFields
deriving Repr

/-- The `except` handler of `run_ingest`: store
`status=error, stage=error, message=<diagnostic>` at the progress level
reached, then re-raise.  If that `update_job` itself raises (unknown
id), the `KeyError` propagates instead and no update is applied. -/
def runFail (id now : String) (progress : Int) (e : ExcInfo) (s : StoreState)
    (tr : List UpdateFields) : RunRes :=
  match update_job id
      ⟨some "error", some "error", some progress, some (some (formatErrorMessage e)), none⟩
      now s with
  | .ok pr =>
      ⟨.error e, progress, pr.2,
        tr ++ [⟨some "error", some "error", some progress,
          some (some (formatErrorMessage e)), none⟩]⟩
  | .error _ => ⟨.error (keyErrorExc id), progress, s, tr⟩

/-- The five non-error `update_job` payloads `run_ingest` submits, in
pipeline order: announce `validate` at progress 1 clearing `message`;
announce `transcode_mezz` at the validate boundary 5; announce
`make_proxy` at 60 merging `mezzanine_url`; announce `thumbs` at 80
merging `proxy_url`; re-announce `thumbs` at 95. -/
def ufValidate : UpdateFields := ⟨some "running", some "validate", some 1, some none, none⟩

def ufMezz : UpdateFields := ⟨some "running", some "transcode_mezz", some 5, none, none⟩

def ufProxy (id : String) : UpdateFields :=
  ⟨some "running", some "make_proxy", some 60, none,
    some ⟨none, some (some (build_asset_urls id).mezzanine_url), none, none, none⟩⟩

def ufThumbs (id : String) : UpdateFields :=
  ⟨some "running", some "thumbs", some 80, none,
    some ⟨none, none, some (some (build_asset_urls id).proxy_url), none, none⟩⟩

def ufThumbs95 : UpdateFields := ⟨some "running", some "thumbs", some 95, none, none⟩

/-- The final `update_job` payload: mark the job ready at 100 with all
four produced asset URLs. -/
def ufReady (id : String) : UpdateFields :=
  ⟨some "ready", some "ready", some 100, none,
    some ⟨none, some (some (build_asset_urls id).mezzanine_url),
      some (some (build_asset_urls id).proxy_url),
      some (some (build_asset_urls id).thumbs_glob),
      some (some (build_asset_urls id).keyframes_csv)⟩⟩

/-- `run_ingest(upload_id, src_path, ext)`: the pipeline body.  Stage
order, progress values and update payloads follow the source: announce
`validate` at progress 1 with `message` cleared, probe and require a
video stream (`codec_type == "video"`), then per completed stage
announce the next one at its `STAGE_PROGRESS` boundary merging each
produced asset, and finally mark the job ready.  The worker's local
`progress` variable is advanced just before each boundary update, so a
failure surfaces at the last value assigned. -/
def run_ingest (env : Env) (id now : String) (s0 : StoreState) : RunRes :=
  match update_job id ufValidate now s0 with
  | .error _ => runFail id now 0 (keyErrorExc id) s0 []
  | .ok p1 =>
    match env.probe with
    | .error e => runFail id now 1 (.cmd e) p1.2 [ufValidate]
    | .ok streams =>
      if streams.filter (fun t => t == "video") = [] then
        runFail id now 1 (.other "No video streams detected during validation") p1.2
          [ufValidate]
      else
        match update_job id ufMezz now p1.2 with
        | .error _ => runFail id now 5 (keyErrorExc id) p1.2 [ufValidate]
        | .ok p2 =>
          match env.mezz with
          | .error e => runFail id now 5 (.cmd e) p2.2 [ufValidate, ufMezz]
          | .ok _ =>
            match update_job id (ufProxy id) now p2.2 with
            | .error _ => runFail id now 60 (keyErrorExc id) p2.2 [ufValidate, ufMezz]
            | .ok p3 =>
              match env.proxy with
              | .error e => runFail id now 60 (.cmd e) p3.2 [ufValidate, ufMezz, ufProxy id]
              | .ok _ =>
                match update_job id (ufThumbs id) now p3.2 with
                | .error _ => runFail id now 80 (keyErrorExc id) p3.2
                    [ufValidate, ufMezz, ufProxy id]
                | .ok p4 =>
                  match env.thumbs with
                  | .error e => runFail id now 80 (.cmd e) p4.2
                      [ufValidate, ufMezz, ufProxy id, ufThumbs id]
                  | .ok _ =>
                    match update_job id ufThumbs95 now p4.2 with
                    | .error _ => runFail id now 95 (keyErrorExc id) p4.2
                        [ufValidate, ufMezz, ufProxy id, ufThumbs id]
                    | .ok p5 =>
                      match env.keyframe with
                      | .error e => runFail id now 95 (.cmd e) p5.2
                          [ufValidate, ufMezz, ufProxy id, ufThumbs id, ufThumbs95]
                      | .ok _ =>
                        match update_job id (ufReady id) now p5.2 with
                        | .error _ => runFail id now 100 (keyErrorExc id) p5.2
                            [ufValidate, ufMezz, ufProxy id, ufThumbs id, ufThumbs95]
                        | .ok p6 =>
                            ⟨.ok (), 100, p6.2,
                              [ufValidate, ufMezz, ufProxy id, ufThumbs id, ufThumbs95,
                               ufReady id]⟩


lemma update_job_ok (id : String) (f : UpdateFields) (now : String) (s : StoreState)
    (hk : ∃ j, alookup id s.jobs = some j) :
    ∃ pr : Job × StoreState, update_job id f now s = Except.ok pr ∧
      alookup id pr.2.jobs = some pr.1 := by
  obtain ⟨j, hj⟩ := hk
  unfold update_job
  rw [hj]
  refine ⟨_, rfl, ?_⟩
  exact alookup_setEntry id _ s.jobs

lemma update_job_full_fields (id st sg : String) (p : Int) (msg : Option String)
    (now : String) (s : StoreState) (j : Job) (hj : alookup id s.jobs = some j) :
    ∃ pr : Job × StoreState,
      update_job id ⟨some st, some sg, some p, some msg, none⟩ now s = Except.ok pr ∧
      alookup id pr.2.jobs = some pr.1 ∧
      pr.1.status = st ∧ pr.1.stage = sg ∧ pr.1.progress = p ∧ pr.1.message = msg := by
  unfold update_job
  rw [hj]
  exact ⟨_, rfl, alookup_setEntry id _ s.jobs, rfl, rfl, rfl, rfl⟩

lemma runFail_spec (id now : String) (p : Int) (e : ExcInfo) (s : StoreState)
    (tr : List UpdateFields) (j : Job) (hj : alookup id s.jobs = some j) :
    ∃ j', get_job id (runFail id now p e s tr).state = some j' ∧
      j'.status = "error" ∧ j'.stage = "error" ∧
      j'.message = some (formatErrorMessage e) ∧ j'.progress = p ∧
      (runFail id now p e s tr).result = Except.error e ∧
      (runFail id now p e s tr).progress = p ∧
      (runFail id now p e s tr).trace = tr ++
        [⟨some "error", some "error", some p, some (some (formatErrorMessage e)), none⟩] := by
  obtain ⟨pr, heq, hl, hst, hsg, hpr, hmsg⟩ :=
    update_job_full_fields id "error" "error" p (some (formatErrorMessage e)) now s j hj
  unfold runFail
  rw [heq]
  exact ⟨pr.1, hl, hst, hsg, hmsg, hpr, rfl, rfl, rfl⟩

/-- C2: whenever any pipeline stage of `run_ingest` raises, the worker
stores `status=error, stage=error` with the diagnostic message (stderr
tail when available, otherwise `str(exc)`), that message is non-empty,
the stored `progress` equals the worker's local progress variable —
the level reached before the failure — and the error is re-raised
(`result = .error e`).  Requires the job to exist in the store (as it
does for every worker the coordinator starts). -/
theorem worker_error_handling (env : Env) (id now : String) (s : StoreState) (e : ExcInfo)
    (hk : ∃ j, alookup id s.jobs = some j)
    (he : (run_ingest env id now s).result = Except.error e) :
    ∃ j, get_job id (run_ingest env id now s).state = some j ∧
      j.status = "error" ∧ j.stage = "error" ∧
      j.message = some (formatErrorMessage e) ∧ formatErrorMessage e ≠ "" ∧
      j.progress = (run_ingest env id now s).progress := by
  obtain ⟨pr1, heq1, hl1⟩ := update_job_ok id ufValidate now s hk
  cases hp : env.probe with
  | error ce =>
      have hrun : run_ingest env id now s
          = runFail id now 1 (.cmd ce) pr1.2 [ufValidate] := by
        unfold run_ingest
        rw [heq1, hp]
        try rfl
      rw [hrun] at he ⊢
      obtain ⟨j', hget, hst, hsg, hmsg, hpr, hres, hrpr, _⟩ :=
        runFail_spec id now 1 (.cmd ce) pr1.2 [ufValidate] pr1.1 hl1
      rw [hres] at he
      injection he with h
      subst h
      exact ⟨j', hget, hst, hsg, hmsg, formatErrorMessage_cmd_ne ce, hpr.trans hrpr.symm⟩
  | ok streams =>
      by_cases hvs : streams.filter (fun t => t == "video") = []
      · have hrun : run_ingest env id now s
            = runFail id now 1 (.other "No video streams detected during validation")
                pr1.2 [ufValidate] := by
          unfold run_ingest
          rw [heq1, hp]
          dsimp only
          rw [if_pos hvs]
        rw [hrun] at he ⊢
        obtain ⟨j', hget, hst, hsg, hmsg, hpr, hres, hrpr, _⟩ :=
          runFail_spec id now 1 (.other "No video streams detected during validation")
            pr1.2 [ufValidate] pr1.1 hl1
        rw [hres] at he
        injection he with h
        subst h
        refine ⟨j', hget, hst, hsg, hmsg, ?_, hpr.trans hrpr.symm⟩
        decide
      · obtain ⟨pr2, heq2, hl2⟩ := update_job_ok id ufMezz now pr1.2 ⟨pr1.1, hl1⟩
        cases hm : env.mezz with
        | error ce =>
            have hrun : run_ingest env id now s
                = runFail id now 5 (.cmd ce) pr2.2 [ufValidate, ufMezz] := by
              unfold run_ingest
              rw [heq1, hp]
              dsimp only
              rw [if_neg hvs, heq2, hm]
              try rfl
            rw [hrun] at he ⊢
            obtain ⟨j', hget, hst, hsg, hmsg, hpr, hres, hrpr, _⟩ :=
              runFail_spec id now 5 (.cmd ce) pr2.2 [ufValidate, ufMezz] pr2.1 hl2
            rw [hres] at he
            injection he with h
            subst h
            exact ⟨j', hget, hst, hsg, hmsg, formatErrorMessage_cmd_ne ce,
              hpr.trans hrpr.symm⟩
        | ok u =>
            obtain ⟨pr3, heq3, hl3⟩ := update_job_ok id (ufProxy id) now pr2.2 ⟨pr2.1, hl2⟩
            cases hx : env.proxy with
            | error ce =>
                have hrun : run_ingest env id now s
                    = runFail id now 60 (.cmd ce) pr3.2 [ufValidate, ufMezz, ufProxy id] := by
                  unfold run_ingest
                  rw [heq1, hp]
                  dsimp only
                  rw [if_neg hvs, heq2, hm]
                  dsimp only
                  rw [heq3, hx]
                  try rfl
                rw [hrun] at he ⊢
                obtain ⟨j', hget, hst, hsg, hmsg, hpr, hres, hrpr, _⟩ :=
                  runFail_spec id now 60 (.cmd ce) pr3.2
                    [ufValidate, ufMezz, ufProxy id] pr3.1 hl3
                rw [hres] at he
                injection he with h
                subst h
                exact ⟨j', hget, hst, hsg, hmsg, formatErrorMessage_cmd_ne ce,
                  hpr.trans hrpr.symm⟩
            | ok u2 =>
                obtain ⟨pr4, heq4, hl4⟩ :=
                  update_job_ok id (ufThumbs id) now pr3.2 ⟨pr3.1, hl3⟩
                cases ht : env.thumbs with
                | error ce =>
                    have hrun : run_ingest env id now s
                        = runFail id now 80 (.cmd ce) pr4.2
                            [ufValidate, ufMezz, ufProxy id, ufThumbs id] := by
                      unfold run_ingest
                      rw [heq1, hp]
                      dsimp only
                      rw [if_neg hvs, heq2, hm]
                      dsimp only
                      rw [heq3, hx]
                      dsimp only
                      rw [heq4, ht]
                      try rfl
                    rw [hrun] at he ⊢
                    obtain ⟨j', hget, hst, hsg, hmsg, hpr, hres, hrpr, _⟩ :=
                      runFail_spec id now 80 (.cmd ce) pr4.2
                        [ufValidate, ufMezz, ufProxy id, ufThumbs id] pr4.1 hl4
                    rw [hres] at he
                    injection he with h
                    subst h
                    exact ⟨j', hget, hst, hsg, hmsg, formatErrorMessage_cmd_ne ce,
                      hpr.trans hrpr.symm⟩
                | ok u3 =>
                    obtain ⟨pr5, heq5, hl5⟩ :=
                      update_job_ok id ufThumbs95 now pr4.2 ⟨pr4.1, hl4⟩
                    cases hkf : env.keyframe with
                    | error ce =>
                        have hrun : run_ingest env id now s
                            = runFail id now 95 (.cmd ce) pr5.2
                                [ufValidate, ufMezz, ufProxy id, ufThumbs id, ufThumbs95] := by
                          unfold run_ingest
                          rw [heq1, hp]
                          dsimp only
                          rw [if_neg hvs, heq2, hm]
                          dsimp only
                          rw [heq3, hx]
                          dsimp only
                          rw [heq4, ht]
                          dsimp only
                          rw [heq5, hkf]
                          try rfl
                        rw [hrun] at he ⊢
                        obtain ⟨j', hget, hst, hsg, hmsg, hpr, hres, hrpr, _⟩ :=
                          runFail_spec id now 95 (.cmd ce) pr5.2
                            [ufValidate, ufMezz, ufProxy id, ufThumbs id, ufThumbs95]
                            pr5.1 hl5
                        rw [hres] at he
                        injection he with h
                        subst h
                        exact ⟨j', hget, hst, hsg, hmsg, formatErrorMessage_cmd_ne ce,
                          hpr.trans hrpr.symm⟩
                    | ok out =>
                        obtain ⟨pr6, heq6, hl6⟩ :=
                          update_job_ok id (ufReady id) now pr5.2 ⟨pr5.1, hl5⟩
                        have hrun : run_ingest env id now s
                            = ⟨.ok (), 100, pr6.2,
                                [ufValidate, ufMezz, ufProxy id, ufThumbs id, ufThumbs95,
                                 ufReady id]⟩ := by
                          unfold run_ingest
                          rw [heq1, hp]
                          dsimp only
                          rw [if_neg hvs, heq2, hm]
                          dsimp only
                          rw [heq3, hx]
                          dsimp only
                          rw [heq4, ht]
                          dsimp only
                          rw [heq5, hkf]
                          dsimp only
                          rw [heq6]
                          try rfl
                        rw [hrun] at he
                        exact Except.noConfusion he

/-- Concrete environment whose probe command fails. -/
def c2Env : Env := ⟨.error ⟨["ffprobe"], 1, ["boom"]⟩, .ok (), .ok (), .ok (), .ok ""⟩

/-- Store holding one freshly created job `u1`. -/
def c2State : StoreState :=
  (create_job "u1" "/data/original/u1.mp4" "/assets/original/u1.mp4" "t0" ⟨[], [], none⟩).2

/-- The error `c2Env`'s run re-raises. -/
def c2Exc : ExcInfo := .cmd ⟨["ffprobe"], 1, ["boom"]⟩

/-- Witness for C2: a concrete failing probe on a concrete job. -/
theorem worker_error_handling_witness :
    ∃ j, get_job "u1" (run_ingest c2Env "u1" "t1" c2State).state = some j ∧
      j.status = "error" ∧ j.stage = "error" ∧
      j.message = some (formatErrorMessage c2Exc) ∧ formatErrorMessage c2Exc ≠ "" ∧
      j.progress = (run_ingest c2Env "u1" "t1" c2State).progress :=
  worker_error_handling c2Env "u1" "t1" c2State c2Exc ⟨_, rfl⟩ rfl

/-- The error-handler update payload at progress `p` with message `m`. -/
def errUf (p : Int) (m : String) : UpdateFields :=
  ⟨some "error", some "error", some p, some (some m), none⟩

/-- Every run of `run_ingest` on an existing job applies one of six
update sequences: the full successful pipeline, or a prefix of it
followed by a single error record at the progress level reached. -/
lemma run_ingest_trace_shapes (env : Env) (id now : String) (s : StoreState)
    (hk : ∃ j, alookup id s.jobs = some j) :
    (run_ingest env id now s).trace
        = [ufValidate, ufMezz, ufProxy id, ufThumbs id, ufThumbs95, ufReady id] ∨
      ∃ m : String,
        (run_ingest env id now s).trace = [ufValidate, errUf 1 m] ∨
        (run_ingest env id now s).trace = [ufValidate, ufMezz, errUf 5 m] ∨
        (run_ingest env id now s).trace = [ufValidate, ufMezz, ufProxy id, errUf 60 m] ∨
        (run_ingest env id now s).trace
          = [ufValidate, ufMezz, ufProxy id, ufThumbs id, errUf 80 m] ∨
        (run_ingest env id now s).trace
          = [ufValidate, ufMezz, ufProxy id, ufThumbs id, ufThumbs95, errUf 95 m] := by
  obtain ⟨pr1, heq1, hl1⟩ := update_job_ok id ufValidate now s hk
  cases hp : env.probe with
  | error ce =>
      have hrun : run_ingest env id now s
          = runFail id now 1 (.cmd ce) pr1.2 [ufValidate] := by
        unfold run_ingest
        rw [heq1, hp]
        try rfl
      obtain ⟨j', _, _, _, _, _, _, _, htr⟩ :=
        runFail_spec id now 1 (.cmd ce) pr1.2 [ufValidate] pr1.1 hl1
      refine Or.inr ⟨formatErrorMessage (.cmd ce), Or.inl ?_⟩
      rw [hrun, htr]
      rfl
  | ok streams =>
      by_cases hvs : streams.filter (fun t => t == "video") = []
      · have hrun : run_ingest env id now s
            = runFail id now 1 (.other "No video streams detected during validation")
                pr1.2 [ufValidate] := by
          unfold run_ingest
          rw [heq1, hp]
          dsimp only
          rw [if_pos hvs]
        obtain ⟨j', _, _, _, _, _, _, _, htr⟩ :=
          runFail_spec id now 1 (.other "No video streams detected during validation")
            pr1.2 [ufValidate] pr1.1 hl1
        refine Or.inr ⟨"No video streams detected during validation", Or.inl ?_⟩
        rw [hrun, htr]
        rfl
      · obtain ⟨pr2, heq2, hl2⟩ := update_job_ok id ufMezz now pr1.2 ⟨pr1.1, hl1⟩
        cases hm : env.mezz with
        | error ce =>
            have hrun : run_ingest env id now s
                = runFail id now 5 (.cmd ce) pr2.2 [ufValidate, ufMezz] := by
              unfold run_ingest
              rw [heq1, hp]
              dsimp only
              rw [if_neg hvs, heq2, hm]
              try rfl
            obtain ⟨j', _, _, _, _, _, _, _, htr⟩ :=
              runFail_spec id now 5 (.cmd ce) pr2.2 [ufValidate, ufMezz] pr2.1 hl2
            refine Or.inr ⟨formatErrorMessage (.cmd ce), Or.inr (Or.inl ?_)⟩
            rw [hrun, htr]
            rfl
        | ok u =>
            obtain ⟨pr3, heq3, hl3⟩ := update_job_ok id (ufProxy id) now pr2.2 ⟨pr2.1, hl2⟩
            cases hx : env.proxy with
            | error ce =>
                have hrun : run_ingest env id now s
                    = runFail id now 60 (.cmd ce) pr3.2 [ufValidate, ufMezz, ufProxy id] := by
                  unfold run_ingest
                  rw [heq1, hp]
                  dsimp only
                  rw [if_neg hvs, heq2, hm]
                  dsimp only
                  rw [heq3, hx]
                  try rfl
                obtain ⟨j', _, _, _, _, _, _, _, htr⟩ :=
                  runFail_spec id now 60 (.cmd ce) pr3.2
                    [ufValidate, ufMezz, ufProxy id] pr3.1 hl3
                refine Or.inr ⟨formatErrorMessage (.cmd ce), Or.inr (Or.inr (Or.inl ?_))⟩
                rw [hrun, htr]
                rfl
            | ok u2 =>
                obtain ⟨pr4, heq4, hl4⟩ :=
                  update_job_ok id (ufThumbs id) now pr3.2 ⟨pr3.1, hl3⟩
                cases ht : env.thumbs with
                | error ce =>
                    have hrun : run_ingest env id now s
                        = runFail id now 80 (.cmd ce) pr4.2
                            [ufValidate, ufMezz, ufProxy id, ufThumbs id] := by
                      unfold run_ingest
                      rw [heq1, hp]
                      dsimp only
                      rw [if_neg hvs, heq2, hm]
                      dsimp only
                      rw [heq3, hx]
                      dsimp only
                      rw [heq4, ht]
                      try rfl
                    obtain ⟨j', _, _, _, _, _, _, _, htr⟩ :=
                      runFail_spec id now 80 (.cmd ce) pr4.2
                        [ufValidate, ufMezz, ufProxy id, ufThumbs id] pr4.1 hl4
                    refine Or.inr ⟨formatErrorMessage (.cmd ce),
                      Or.inr (Or.inr (Or.inr (Or.inl ?_)))⟩
                    rw [hrun, htr]
                    rfl
                | ok u3 =>
                    obtain ⟨pr5, heq5, hl5⟩ :=
                      update_job_ok id ufThumbs95 now pr4.2 ⟨pr4.1, hl4⟩
                    cases hkf : env.keyframe with
                    | error ce =>
                        have hrun : run_ingest env id now s
                            = runFail id now 95 (.cmd ce) pr5.2
                                [ufValidate, ufMezz, ufProxy id, ufThumbs id, ufThumbs95] := by
                          unfold run_ingest
                          rw [heq1, hp]
                          dsimp only
                          rw [if_neg hvs, heq2, hm]
                          dsimp only
                          rw [heq3, hx]
                          dsimp only
                          rw [heq4, ht]
                          dsimp only
                          rw [heq5, hkf]
                          try rfl
                        obtain ⟨j', _, _, _, _, _, _, _, htr⟩ :=
                          runFail_spec id now 95 (.cmd ce) pr5.2
                            [ufValidate, ufMezz, ufProxy id, ufThumbs id, ufThumbs95]
                            pr5.1 hl5
                        refine Or.inr ⟨formatErrorMessage (.cmd ce),
                          Or.inr (Or.inr (Or.inr (Or.inr ?_)))⟩
                        rw [hrun, htr]
                        rfl
                    | ok out =>
                        obtain ⟨pr6, heq6, hl6⟩ :=
                          update_job_ok id (ufReady id) now pr5.2 ⟨pr5.1, hl5⟩
                        have hrun : run_ingest env id now s
                            = ⟨.ok (), 100, pr6.2,
                                [ufValidate, ufMezz, ufProxy id, ufThumbs id, ufThumbs95,
                                 ufReady id]⟩ := by
                          unfold run_ingest
                          rw [heq1, hp]
                          dsimp only
                          rw [if_neg hvs, heq2, hm]
                          dsimp only
                          rw [heq3, hx]
                          dsimp only
                          rw [heq4, ht]
                          dsimp only
                          rw [heq5, hkf]
                          dsimp only
                          rw [heq6]
                          try rfl
                        refine Or.inl ?_
                        rw [hrun]

/-! ### C8: the validate-stage announcement -/

/-- Environment whose probe command exits non-zero with empty stderr. -/
def c8Env : Env :=
  ⟨.error ⟨["ffprobe", "-v", "error", "-show_streams", "-of", "json",
      "/data/original/u8.mp4"], 1, []⟩, .ok (), .ok (), .ok (), .ok ""⟩

/-- Store holding a freshly created job `u8`. -/
def c8State : StoreState :=
  (create_job "u8" "/data/original/u8.mp4" "/assets/original/u8.mp4" "t0" ⟨[], [], none⟩).2

/-- The run of `c8Env` on `u8`: the probe fails, so the only non-error
update is the one submitted before the probe executed. -/
def c8Run : RunRes := run_ingest c8Env "u8" "t1" c8State

/-- C8 counterexample: the update applied before the probe runs carries
`progress = 1`, not 5 (stage announced as `validate`, `message`
cleared); with the probe failing, even the preserved progress after the
validate-stage failure is 1, which it could not be had progress been
set to 5 beforehand. -/
theorem validate_progress_counterexample :
    c8Run.trace.head? = some ⟨some "running", some "validate", some 1, some none, none⟩ ∧
    some (1 : Int) ≠ some (5 : Int) ∧
    (get_job "u8" c8Run.state).map Job.progress = some 1 := by
  refine ⟨rfl, by decide, rfl⟩

/-- C8 amended: in the validate stage the worker's first applied update
announces `stage=validate`, `status=running`, clears `message`, and sets
`progress` to 1 (not 5) before the media-probe command is executed;
progress reaches 5 only after the probe succeeds. -/
theorem validate_stage_announcement (env : Env) (id now : String) (s : StoreState)
    (hk : ∃ j, alookup id s.jobs = some j) :
    (run_ingest env id now s).trace.head?
      = some ⟨some "running", some "validate", some 1, some none, none⟩ := by
  rcases run_ingest_trace_shapes env id now s hk with h | ⟨m, h | h | h | h | h⟩ <;>
    rw [h] <;> rfl

/-- Witness for the amended C8 on a concrete job. -/
theorem validate_stage_announcement_witness :
    (run_ingest c8Env "u8" "t1" c8State).trace.head?
      = some ⟨some "running", some "validate", some 1, some none, none⟩ :=
  validate_stage_announcement c8Env "u8" "t1" c8State ⟨_, rfl⟩

/-! ### C6: progress monotonicity -/

/-- Environment for a first run that fails at the proxy stage. -/
def c6FailEnv : Env :=
  ⟨.ok ["video"], .ok (), .error ⟨["ffmpeg"], 1, ["proxy failed"]⟩, .ok (), .ok ""⟩

/-- Environment for a retry whose probe fails immediately. -/
def c6RetryEnv : Env :=
  ⟨.error ⟨["ffprobe"], 1, ["probe failed"]⟩, .ok (), .ok (), .ok (), .ok ""⟩

/-- First worker invocation on upload `u6c`: reaches progress 60, then
errors. -/
def c6Run1 : RunRes :=
  run_ingest c6FailEnv "u6c" "t1"
    (create_job "u6c" "/data/original/u6c.mp4" "/assets/original/u6c.mp4" "t0"
      ⟨[], [], none⟩).2

/-- A fresh second invocation on the same upload id. -/
def c6Run2 : RunRes := run_ingest c6RetryEnv "u6c" "t2" c6Run1.state

/-- The progress values of the job updates with `status ≠ error` applied
across the two consecutive invocations, in order. -/
def c6CombinedProgress : List Int :=
  ((c6Run1.trace ++ c6Run2.trace).filter
    (fun u => !(u.status == some "error"))).filterMap UpdateFields.progress

/-- C6 counterexample: across a fresh worker invocation on the same
upload id, the job's progress regresses from 60 back to 1 while
`status = running` in both updates — the non-error progress sequence
`[1, 5, 60, 1]` is not monotonically non-decreasing. -/
theorem progress_monotonic_counterexample :
    c6CombinedProgress = [1, 5, 60, 1] ∧
      ¬ List.Chain' (· ≤ ·) c6CombinedProgress := by
  have h : c6CombinedProgress = [1, 5, 60, 1] := rfl
  refine ⟨h, ?_⟩
  rw [h]
  norm_num [List.chain'_cons, List.chain'_singleton]

/-- C6 amended: within a single worker invocation the progress values
written are integers in 0–100 and monotonically non-decreasing (a fresh
invocation on the same id, however, restarts at 1, which may be below
the previously reached level). -/
theorem worker_progress_monotone (env : Env) (id now : String) (s : StoreState)
    (hk : ∃ j, alookup id s.jobs = some j) :
    List.Chain' (· ≤ ·)
        ((run_ingest env id now s).trace.filterMap UpdateFields.progress) ∧
      ∀ p ∈ (run_ingest env id now s).trace.filterMap UpdateFields.progress,
        0 ≤ p ∧ p ≤ 100 := by
  rcases run_ingest_trace_shapes env id now s hk with h | ⟨m, h | h | h | h | h⟩ <;>
    rw [h]
  · have e : List.filterMap UpdateFields.progress
        [ufValidate, ufMezz, ufProxy id, ufThumbs id, ufThumbs95, ufReady id] = [1, 5, 60, 80, 95, 100] := rfl
    rw [e]
    refine ⟨?_, ?_⟩
    · norm_num [List.chain'_cons, List.chain'_singleton]
    · decide
  · have e : List.filterMap UpdateFields.progress
        [ufValidate, errUf 1 m] = [1, 1] := rfl
    rw [e]
    refine ⟨?_, ?_⟩
    · norm_num [List.chain'_cons, List.chain'_singleton]
    · decide
  · have e : List.filterMap UpdateFields.progress
        [ufValidate, ufMezz, errUf 5 m] = [1, 5, 5] := rfl
    rw [e]
    refine ⟨?_, ?_⟩
    · norm_num [List.chain'_cons, List.chain'_singleton]
    · decide
  · have e : List.filterMap UpdateFields.progress
        [ufValidate, ufMezz, ufProxy id, errUf 60 m] = [1, 5, 60, 60] := rfl
    rw [e]
    refine ⟨?_, ?_⟩
    · norm_num [List.chain'_cons, List.chain'_singleton]
    · decide
  · have e : List.filterMap UpdateFields.progress
        [ufValidate, ufMezz, ufProxy id, ufThumbs id, errUf 80 m] = [1, 5, 60, 80, 80] := rfl
    rw [e]
    refine ⟨?_, ?_⟩
    · norm_num [List.chain'_cons, List.chain'_singleton]
    · decide
  · have e : List.filterMap UpdateFields.progress
        [ufValidate, ufMezz, ufProxy id, ufThumbs id, ufThumbs95, errUf 95 m] = [1, 5, 60, 80, 95, 95] := rfl
    rw [e]
    refine ⟨?_, ?_⟩
    · norm_num [List.chain'_cons, List.chain'_singleton]
    · decide

/-- Environment of a fully successful run. -/
def c6GoodEnv : Env := ⟨.ok ["video"], .ok (), .ok (), .ok (), .ok ""⟩

/-- Store holding a freshly created job `u6`. -/
def c6GoodState : StoreState :=
  (create_job "u6" "/data/original/u6.mp4" "/assets/original/u6.mp4" "t0" ⟨[], [], none⟩).2

/-- Witness for the amended C6 on a concrete successful run. -/
theorem worker_progress_monotone_witness :
    List.Chain' (· ≤ ·)
        ((run_ingest c6GoodEnv "u6" "t1" c6GoodState).trace.filterMap UpdateFields.progress) ∧
      ∀ p ∈ (run_ingest c6GoodEnv "u6" "t1" c6GoodState).trace.filterMap UpdateFields.progress,
        0 ≤ p ∧ p ≤ 100 :=
  worker_progress_monotone c6GoodEnv "u6" "t1" c6GoodState ⟨_, rfl⟩

/-! ## Ingest router status resolution (`routers/ingest.py`)

`_resolve_status` consults the in-memory `_upload_store` (modelled as an
association list of payloads), then the `original/` directory (modelled
as the list of file names present), then falls back on the id's shape.
Python string primitives (`str.replace`, `str.strip`, `str.lower`,
`int(_, 16)`) are modelled structurally over character lists so that
everything evaluates. -/

/-- `pattern` is a prefix of the character list. -/
def listStartsWith : List Char → List Char → Bool
  | [], _ => true
  | _ :: _, [] => false
  | p :: ps, c :: cs => p == c && listStartsWith ps cs

/-- Fuel-driven body of `str.replace`: scan left to right, replacing
each (non-overlapping) occurrence of `pat`.  Fuel is the input length;
each step consumes at least one character, so the fuel never runs out
for non-empty `pat`. -/
def pyReplaceFuel (pat rep : List Char) : Nat → List Char → List Char
  | _, [] => []
  | 0, l => l
  | Nat.succ n, c :: cs =>
      if pat ≠ [] ∧ listStartsWith pat (c :: cs) then
        rep ++ pyReplaceFuel pat rep n (List.drop (pat.length - 1) cs)
      else c :: pyReplaceFuel pat rep n cs

/-- `s.replace(pat, rep)` for non-empty `pat` (the source only replaces
`"urn:"`, `"uuid:"` and `"-"`). -/
def pyReplace (s pat rep : String) : String :=
  ⟨pyReplaceFuel pat.data rep.data s.data.length s.data⟩

/-- `s.strip(chars)` over a character predicate: drop matching
characters from both ends. -/
def pyStripBy (p : Char → Bool) (s : String) : String :=
  ⟨((s.data.dropWhile p).reverse.dropWhile p).reverse⟩

/-- `s.strip('{}')`. -/
def pyStripBraces (s : String) : String :=
  pyStripBy (fun c => c == Char.ofNat 123 || c == Char.ofNat 125) s

/-- `s.strip()` (ASCII whitespace, which covers the strings at play). -/
def pyTrim (s : String) : String :=
  pyStripBy Char.isWhitespace s

/-- `s.lower()` (ASCII, which covers the stage vocabulary). -/
def pyToLower (s : String) : String :=
  ⟨s.data.map Char.toLower⟩

/-- A hexadecimal digit as accepted by `int(_, 16)`. -/
def isPyHexDigit (c : Char) : Bool :=
  c.isDigit || (decide (97 ≤ c.toNat) && decide (c.toNat ≤ 102))
    || (decide (65 ≤ c.toNat) && decide (c.toNat ≤ 70))

/-- After the leading digit: hex digits with single underscores allowed
only between digits (Python numeric-literal grammar used by `int`). -/
def pyHexTail : List Char → Bool
  | [] => true
  | c :: rest =>
      if c == Char.ofNat 95 then
        match rest with
        | [] => false
        | d :: rest2 => isPyHexDigit d && pyHexTail rest2
      else isPyHexDigit c && pyHexTail rest

/-- A non-empty underscore-separated hex digit run. -/
def pyHexDigitsOk : List Char → Bool
  | [] => false
  | c :: rest => isPyHexDigit c && pyHexTail rest

/-- `int(s, 16)` succeeds: optional surrounding whitespace, an optional
`+` sign (a `-` cannot survive the hyphen removal upstream), then hex
digits with single underscores between digits. -/
def pyIntHex (s : String) : Bool :=
  match (pyTrim s).data with
  | c :: rest => if c == Char.ofNat 43 then pyHexDigitsOk rest else pyHexDigitsOk (c :: rest)
  | [] => false

/-- `_is_uuid_like(value)`: `uuid.UUID(value)` parses — strip `urn:` and
`uuid:` occurrences, strip surrounding braces, remove hyphens, require
exactly 32 remaining characters forming a valid `int(_, 16)` input. -/
def is_uuid_like (s : String) : Bool :=
  pyIntHex (pyReplace (pyStripBraces (pyReplace (pyReplace s "urn:" "") "uuid:" "")) "-" "")
    && (pyReplace (pyStripBraces (pyReplace (pyReplace s "urn:" "") "uuid:" "")) "-" "").length == 32

/-- The router's three-key asset payload. -/
structure PAssets where
  original_url : Option String
  proxy_url : Option String
  mezzanine_url : Option String
deriving DecidableEq, Repr

/-- A `/ingest/status` payload (`message` present only when truthy). -/
structure Payload where
  status : String
  stage : String
  progress : Int
  assets : PAssets
  message : Option String
deriving DecidableEq, Repr

/-- `_empty_assets()`. -/
def emptyAssets : PAssets := ⟨none, none, none⟩

/-- `STAGE_NORMALIZATION`. -/
def stageNormalizationTable : List (String × String) :=
  [("ready", "ready"), ("validate", "validate"), ("validation", "validate"),
   ("validating", "validate"), ("queued", "validate"), ("proxy", "make_proxy"),
   ("make_proxy", "make_proxy"), ("mezzanine", "transcode_mezz"),
   ("transcode", "transcode_mezz"), ("transcode_mezz", "transcode_mezz"),
   ("thumbs", "thumbs"), ("thumbnails", "thumbs"), ("thumbnail", "thumbs"),
   ("error", "error")]

/-- `_normalize_stage(stage)` for the string arguments the router
passes: empty (falsy) falls back to `DEFAULT_STAGE = "ready"`, known
names map through the table, unknown non-empty names map to
`"error"`. -/
def normalizeStage (stage : String) : String :=
  if stage = "" then "ready"
  else
    match alookup (pyToLower stage) stageNormalizationTable with
    | some n => n
    | none => "error"

/-- `_clamp_progress(value)`. -/
def clampProgress (v : Int) : Int := max 0 (min 100 v)

/-- `_build_status_payload(...)`: normalize the stage, clamp progress,
keep the three known asset keys, attach `message` only when truthy. -/
def buildStatusPayload (status stage : String) (progress : Int) (assets : PAssets)
    (message : Option String) : Payload :=
  ⟨status, normalizeStage stage, clampProgress progress,
   ⟨assets.original_url, assets.proxy_url, assets.mezzanine_url⟩,
   match message with
   | some msg => if msg = "" then none else some msg
   | none => none⟩

/-- `_store_status(...)`: build the payload, store a copy, return a
copy (copies coincide with values here). -/
def storeStatus (store : List (String × Payload)) (id status stage : String)
    (progress : Int) (assets : PAssets) (message : Option String) :
    Payload × List (String × Payload) :=
  (buildStatusPayload status stage progress assets message,
   setEntry id (buildStatusPayload status stage progress assets message) store)

/-- `_asset_urls(upload_id, extension)`. -/
def assetUrls (id : String) (extension : Option String) : PAssets :=
  match extension with
  | none => emptyAssets
  | some e =>
      if e = "" then emptyAssets
      else
        ⟨some ("/assets/original/" ++ id ++ (if listStartsWith [Char.ofNat 46] e.data then e else "." ++ e)),
         some ("/assets/original/" ++ id ++ (if listStartsWith [Char.ofNat 46] e.data then e else "." ++ e)),
         none⟩

/-- `sorted(ALLOWED_EXTENSIONS)`. -/
def sortedAllowedExtensions : List String :=
  [".avi", ".m2ts", ".mkv", ".mov", ".mp4", ".mts", ".webm"]

/-- `_locate_existing_extension(upload_id)` over the modelled directory
listing: the first allowed extension (in sorted order) whose file
`upload_id + ext` exists. -/
def locateExistingExtension (files : List String) (id : String) : Option String :=
  sortedAllowedExtensions.find? (fun ext => files.contains (id ++ ext))

/-- `_resolve_status(upload_id)`: the stored payload if known; else a
synthesized-and-stored ready payload if the original file is found;
else a queued payload for the health id or UUID-like ids; otherwise an
error payload naming the unknown id. -/
def resolveStatus (store : List (String × Payload)) (files : List String) (id : String) :
    Payload × List (String × Payload) :=
  match alookup id store with
  | some p => (p, store)
  | none =>
    match locateExistingExtension files id with
    | some ext => storeStatus store id "ready" "ready" 100 (assetUrls id (some ext)) none
    | none =>
      if id = "healthcheck" ∨ is_uuid_like id = true then
        (buildStatusPayload "queued" "validate" 0 emptyAssets none, store)
      else
        (buildStatusPayload "error" "error" 0 emptyAssets
          (some ("Unknown upload_id \x27" ++ id ++ "\x27")), store)

/-- C7 counterexample: for the unknown id `"nope"` — absent from the
store, with no original file on disk — the claim says the response
reports status `queued`; the code instead returns an `error` payload,
because `"nope"` is neither the health id nor UUID-like. -/
theorem resolve_status_counterexample :
    alookup "nope" ([] : List (String × Payload)) = none ∧
    locateExistingExtension [] "nope" = none ∧
    (resolveStatus [] [] "nope").1.status = "error" ∧
    (resolveStatus [] [] "nope").1.status ≠ "queued" := by
  refine ⟨rfl, rfl, rfl, by decide⟩

/-- The status-resolution behaviour as amended, stated from the spec's
words: the stored snapshot if the id is known; else a `ready` payload
at progress 100 referencing the discovered original file; else, for the
health id or a UUID-like id, `queued` with empty assets; otherwise an
`error` payload whose message names the unknown id. -/
def resolveStatusSpec (store : List (String × Payload)) (files : List String)
    (id : String) : Payload :=
  match alookup id store with
  | some p => p
  | none =>
    match locateExistingExtension files id with
    | some ext =>
        ⟨"ready", "ready", 100,
         ⟨some ("/assets/original/" ++ id ++ ext), some ("/assets/original/" ++ id ++ ext),
          none⟩, none⟩
    | none =>
      if id = "healthcheck" ∨ is_uuid_like id = true then
        ⟨"queued", "validate", 0, ⟨none, none, none⟩, none⟩
      else
        ⟨"error", "error", 0, ⟨none, none, none⟩,
         some ("Unknown upload_id \x27" ++ id ++ "\x27")⟩

/-- C7 amended: `_resolve_status` refines `resolveStatusSpec` — known
ids get their snapshot; ids with an on-disk original get a ready
payload referencing it; unknown health/UUID-like ids get queued with
empty assets; all other unknown ids get an error payload (this last
branch is what the original claim missed). -/
theorem resolve_status_spec (store : List (String × Payload)) (files : List String)
    (id : String) :
    (resolveStatus store files id).1 = resolveStatusSpec store files id := by
  unfold resolveStatus resolveStatusSpec
  cases hq : alookup id store with
  | some p => rfl
  | none =>
    cases hl : locateExistingExtension files id with
    | some ext =>
        have hmem : ext ∈ sortedAllowedExtensions := List.mem_of_find?_eq_some hl
        fin_cases hmem <;> rfl
    | none =>
        by_cases hh : id = "healthcheck" ∨ is_uuid_like id = true
        · rw [if_pos hh, if_pos hh]
          rfl
        · rw [if_neg hh, if_neg hh]
          have hne : ("Unknown upload_id \x27" ++ id ++ "\x27") ≠ "" := by
            intro hcon
            have hlen := congrArg String.length hcon
            rw [String.length_append, String.length_append] at hlen
            have h19 : ("Unknown upload_id \x27").length = 19 := rfl
            have h0 : ("" : String).length = 0 := rfl
            omega
          show (buildStatusPayload "error" "error" 0 emptyAssets
            (some ("Unknown upload_id \x27" ++ id ++ "\x27")), store).1 = _
          unfold buildStatusPayload
          dsimp only
          rw [if_neg hne]
          try rfl

end Lilbro